import Mathlib

/-!
Verification of the GangNangBot auth backend
(`agent-backend/routers/auth.py`, `agent-backend/routers/database.py`).

The identity upsert and session-issuance flow is embedded shallowly:
the `profiles` table becomes a list of `Profile` rows, the SQL
statements of `upsert_user` / `get_user_by_id` become pure functions on
that list, and `get_current_user` / `google_callback` become total
functions returning an explicit outcome type (an HTTP error outcome for
each `raise HTTPException`).  Python strings are Lean `String`s; the
header parsing of `/me` (`startswith`, `split(" ")[1]`) is modelled
character-exactly on `List Char`.

The token primitive `utils/jwt` is not part of the repository sources;
its contract is modelled from the spec (section 4.1), and the flow
functions are parametric in the verification function, exactly as the
Python code is parametric in whatever `verify_token` does.
-/

namespace GangNangBot

/-! ## Data model: the `profiles` table -/

/-- One row of the `profiles` table.  `id` is the internally generated
128-bit identifier (modelled as `Nat`); `google_id` is the external
identity subject; `name` and the additional profile fields are nullable
in the schema, so they are `Option`s.  Timestamps are abstract instants
modelled as `Nat`. -/
structure Profile where
  id : Nat
  google_id : String
  email : String
  name : Option String
  student_id : Option String := none
  college : Option String := none
  department : Option String := none
  major : Option String := none
  graduation_status : Option String := none
  current_semester : Option String := none
  created_at : Option Nat := none
  updated_at : Option Nat := none
deriving DecidableEq, Repr

/-- The `profiles` table: a finite sequence of rows.  `fetchone` on a
`SELECT ... WHERE` becomes `List.find?` with the `WHERE` predicate. -/
abbrev ProfileStore := List Profile

/-- `str(uuid)`: the rendering of a model identifier as the string that
appears in token payloads and in the `/me` projection. -/
def uuidToString (u : Nat) : String := toString u

/-- `datetime.isoformat()`: the canonical rendering of a model
timestamp as a string. -/
def isoformat (t : Nat) : String := toString t

/-! ## Token codec

Modelled from the spec: `utils/jwt` (`create_access_token`,
`verify_token`) is imported by `auth.py` but its source is not in the
repository.  Spec section 4.1: `issue(subject_id)` produces a signed
token encoding the subject and an expiry; `verify(token)` checks
signature and expiry and returns an explicit invalid result (never
throws) on signature mismatch, malformed token, or passed expiry. -/

/-- The payload carried by a session token: the `user_id` claim written
by `create_access_token(data={"user_id": str(user_id)})` (absent in
tokens issued elsewhere), plus the expiry metadata. -/
structure TokenPayload where
  user_id : Option String
  exp : Nat
deriving DecidableEq, Repr

/-- A token is either a well-formed signed payload or garbage that does
not parse (spec: "malformed"). -/
inductive Token where
  | signed (payload : TokenPayload) (sig : Nat)
  | malformed (raw : String)
deriving DecidableEq, Repr

/-- Modelled from the spec: the delegated signing primitive.  Any
concrete keyed function serves the contract; verification only ever
compares against it. -/
def signature (key : Nat) (p : TokenPayload) : Nat :=
  key * 31 + p.exp * 7 + (p.user_id.map String.length).getD 0

/-- Modelled from the spec: `create_access_token` signs a payload
carrying the `user_id` claim and an expiry `issueTime + ttl`. -/
def create_access_token (key issueTime ttl : Nat) (user_id : String) : Token :=
  let p : TokenPayload := ⟨some user_id, issueTime + ttl⟩
  Token.signed p (signature key p)

/-- Modelled from the spec: `verify_token` returns the payload when the
signature matches and the current time is not past the encoded expiry,
and an explicit `none` on signature mismatch, malformed input, or
expiry. -/
def verify_token (key now : Nat) : Token → Option TokenPayload
  | Token.signed p sig => if sig = signature key p ∧ now ≤ p.exp then some p else none
  | Token.malformed _ => none

/-- The subject identifier encoded in a token, when there is one. -/
def tokenSubject : Token → Option String
  | Token.signed p _ => p.user_id
  | Token.malformed _ => none

/-! ## Python string operations used by `get_current_user` -/

/-- Python `str.split(sep)` with an explicit one-character separator:
empty fields are kept, and the empty string splits to `[""]`. -/
def pySplitChar (sep : Char) : List Char → List (List Char)
  | [] => [[]]
  | c :: cs =>
    if c = sep then [] :: pySplitChar sep cs
    else
      match pySplitChar sep cs with
      | [] => [[c]]
      | w :: ws => (c :: w) :: ws

/-- `authorization.split(" ")` on a Lean string. -/
def pySplit (sep : Char) (s : String) : List String :=
  (pySplitChar sep s.toList).map (fun l => String.mk l)

/-- Python `authorization.startswith("Bearer ")`. -/
def startsWithBearer (s : String) : Bool :=
  "Bearer ".toList.isPrefixOf s.toList

/-- `authorization.split(" ")[1]`, as a partial access: `none` models
the Python `IndexError` that would escape the handler. -/
def extractToken (s : String) : Option String :=
  (pySplit ' ' s)[1]?

/-- Python truthiness of an optional string: `None` and `""` are falsy. -/
def pyFalsy : Option String → Bool
  | none => true
  | some s => s = ""

/-! ## `upsert_user` (auth.py, lines 113–147) -/

/-- The row inserted for a new user:
`INSERT INTO profiles (id, google_id, email, name, created_at) VALUES
(:id, :google_id, :email, :name, NOW())`; every other column takes its
NULL default. -/
def newProfileRow (freshId : Nat) (now : Nat) (google_id email : String)
    (name : Option String) : Profile :=
  { id := freshId, google_id := google_id, email := email, name := name,
    created_at := some now }

/-- `upsert_user`: `SELECT id FROM profiles WHERE google_id = :google_id`
(`fetchone`); if a row was found, `UPDATE profiles SET email = :email,
name = :name WHERE google_id = :google_id` and return the found `id`;
otherwise insert `newProfileRow` under a fresh `uuid4` identifier and
return it.  The fresh identifier and the clock are inputs of the model;
the result is the returned id together with the table after commit. -/
def upsert_user (freshId : Nat) (now : Nat) (profiles : ProfileStore)
    (google_id email : String) (name : Option String) : Nat × ProfileStore :=
  match profiles.find? (fun r => r.google_id = google_id) with
  | some row =>
    (row.id,
      profiles.map (fun r =>
        if r.google_id = google_id then { r with email := email, name := name } else r))
  | none =>
    (freshId, profiles ++ [newProfileRow freshId now google_id email name])

/-! ## `get_user_by_id` (auth.py, lines 150–182) -/

/-- The dictionary returned by `get_user_by_id`: every selected column,
with `id` rendered by `str(...)` and the timestamps rendered by
`.isoformat()` when present and `None` when absent. -/
structure UserProjection where
  id : String
  google_id : String
  email : String
  name : Option String
  student_id : Option String
  college : Option String
  department : Option String
  major : Option String
  graduation_status : Option String
  current_semester : Option String
  created_at : Option String
  updated_at : Option String
deriving DecidableEq, Repr

/-- `get_user_by_id`: `SELECT ... FROM profiles WHERE id = :user_id`
(`fetchone`), `None` when no row matches, otherwise the full projection
dictionary. -/
def get_user_by_id (profiles : ProfileStore) (user_id : String) : Option UserProjection :=
  match profiles.find? (fun r => uuidToString r.id = user_id) with
  | none => none
  | some row =>
    some { id := uuidToString row.id
           google_id := row.google_id
           email := row.email
           name := row.name
           student_id := row.student_id
           college := row.college
           department := row.department
           major := row.major
           graduation_status := row.graduation_status
           current_semester := row.current_semester
           created_at := row.created_at.map isoformat
           updated_at := row.updated_at.map isoformat }

/-! ## `get_current_user` (auth.py, lines 84–110) -/

/-- The observable outcome of a `/me` request: each `raise
HTTPException` of the handler, the success value, the
framework rejection of a missing required header, and `internalError`
for an unhandled exception (none is reachable, as proved below). -/
inductive MeOutcome where
  | missingAuthorization
  | invalidAuthHeader
  | invalidOrExpiredToken
  | invalidTokenPayload
  | userNotFound
  | ok (user : UserProjection)
  | internalError
deriving DecidableEq, Repr

/-- `get_current_user`, parametric in the ambient `verify_token`
function (its own contract is spec-modelled above).  A `none` header
models the request without an `Authorization` header; the declaration
`authorization: str = Header(...)` makes the framework reject it before
the handler body runs (modelled from the spec: "Header missing entirely
→ fails with missing authorization").  Otherwise: the `startswith`
guard, `split(" ")[1]`, `verify_token`, the truthiness test on
`payload.get("user_id")`, and the store lookup, each failure mapped to
its `HTTPException`. -/
def get_current_user (verify : String → Option TokenPayload)
    (profiles : ProfileStore) (authorization : Option String) : MeOutcome :=
  match authorization with
  | none => MeOutcome.missingAuthorization
  | some auth =>
    if ¬ startsWithBearer auth then MeOutcome.invalidAuthHeader
    else
      match extractToken auth with
      | none => MeOutcome.internalError
      | some token =>
        match verify token with
        | none => MeOutcome.invalidOrExpiredToken
        | some payload =>
          if pyFalsy payload.user_id then MeOutcome.invalidTokenPayload
          else
            match get_user_by_id profiles (payload.user_id.getD "") with
            | none => MeOutcome.userNotFound
            | some user => MeOutcome.ok user

/-! ## `google_callback` (auth.py, lines 43–81) -/

/-- The identity assertion extracted from the provider response:
`userinfo.get("sub")`, `userinfo.get("email")`, `userinfo.get("name")`. -/
structure UserInfo where
  sub : Option String
  email : Option String
  name : Option String
deriving DecidableEq, Repr

/-- What the caller of `/google/callback` observes: the success payload
(`{access_token, token_type, user: {id, email, name}}`, with the store
after the upsert), or an HTTP error with its status and detail. -/
inductive CallbackResult where
  | success (access_token : Token) (user_id : String) (email : String)
      (name : Option String) (profiles : ProfileStore)
  | httpError (status : Nat) (detail : String)
deriving DecidableEq, Repr

/-- Model of `str(e)` for a re-raised `HTTPException`: the status code
and detail of the caught exception. -/
def exceptionText (status : Nat) (detail : String) : String :=
  toString status ++ ": " ++ detail

/-- `google_callback` after a successful code exchange, given the
provider's `userinfo`.  The body runs inside `try: ... except
Exception as e: raise HTTPException(500, f"OAuth callback failed:
{str(e)}")`, and `HTTPException` is itself a subclass of `Exception`,
so the `HTTPException(400, "Invalid user info from Google")` raised for
a missing subject or email is caught by that handler and re-raised as
the 500 — the model reproduces this faithfully. -/
def google_callback (key now ttl freshId : Nat) (profiles : ProfileStore)
    (userinfo : UserInfo) : CallbackResult :=
  if pyFalsy userinfo.sub || pyFalsy userinfo.email then
    CallbackResult.httpError 500
      ("OAuth callback failed: " ++ exceptionText 400 "Invalid user info from Google")
  else
    let r := upsert_user freshId now profiles (userinfo.sub.getD "")
      (userinfo.email.getD "") userinfo.name
    CallbackResult.success
      (create_access_token key now ttl (uuidToString r.1))
      (uuidToString r.1) (userinfo.email.getD "") userinfo.name r.2

/-! ## Helper lemmas -/

/-- `split` never returns an empty list of fields. -/
lemma pySplitChar_ne_nil (sep : Char) (l : List Char) : pySplitChar sep l ≠ [] := by
  induction l with
  | nil => simp [pySplitChar]
  | cons c cs ih =>
    by_cases hc : c = sep
    · simp [pySplitChar, hc]
    · simp only [pySplitChar, if_neg hc]
      cases hpc : pySplitChar sep cs <;> simp

/-- A separator-free string splits to the single field it is. -/
lemma pySplitChar_no_sep (sep : Char) (xs : List Char) (h : sep ∉ xs) :
    pySplitChar sep xs = [xs] := by
  induction xs with
  | nil => rfl
  | cons c cs ih =>
    have hc : ¬ c = sep := fun e => h (by simp [e])
    have hcs : sep ∉ cs := fun m => h (List.mem_cons_of_mem _ m)
    simp [pySplitChar, if_neg hc, ih hcs]

/-- Splitting at the first separator: the separator-free part becomes
the first field. -/
lemma pySplitChar_append (sep : Char) (xs rest : List Char) (h : sep ∉ xs) :
    pySplitChar sep (xs ++ sep :: rest) = xs :: pySplitChar sep rest := by
  induction xs with
  | nil => simp [pySplitChar]
  | cons c cs ih =>
    have hc : ¬ c = sep := fun e => h (by simp [e])
    have hcs : sep ∉ cs := fun m => h (List.mem_cons_of_mem _ m)
    simp [List.cons_append, pySplitChar, if_neg hc, ih hcs]

/-- The `startswith("Bearer ")` guard holds exactly when the header is
`"Bearer"` followed by a space and a remainder. -/
lemma startsWithBearer_iff (h : String) :
    startsWithBearer h = true ↔ ∃ rest, h.toList = "Bearer".toList ++ ' ' :: rest := by
  unfold startsWithBearer
  rw [List.isPrefixOf_iff_prefix]
  constructor
  · rintro ⟨rest, hr⟩
    exact ⟨rest, by rw [← hr]; simp⟩
  · rintro ⟨rest, hr⟩
    exact ⟨rest, by rw [hr]; simp⟩

/-- Under the `startswith` guard, `split(" ")[1]` always exists: the
handler cannot raise an `IndexError`. -/
lemma extractToken_of_bearer (h : String) (hb : startsWithBearer h = true) :
    ∃ t, extractToken h = some t := by
  obtain ⟨rest, hr⟩ := (startsWithBearer_iff h).1 hb
  unfold extractToken pySplit
  rw [hr, pySplitChar_append ' ' _ _ (by decide)]
  cases hpc : pySplitChar ' ' rest with
  | nil => exact absurd hpc (pySplitChar_ne_nil _ _)
  | cons w ws => exact ⟨String.mk w, by simp⟩

/-- Any string starting with the literal `"Bearer "` passes the guard. -/
lemma startsWithBearer_mk (l : List Char) :
    startsWithBearer (String.mk ("Bearer ".toList ++ l)) = true := by
  unfold startsWithBearer
  exact List.isPrefixOf_iff_prefix.2 ⟨l, rfl⟩

/-- `split(" ")[1]` of `"Bearer <a> <b>"` is `<a>` when `<a>` itself has
no space. -/
lemma extractToken_two_words (a b : List Char) (ha : ' ' ∉ a) :
    extractToken (String.mk ("Bearer ".toList ++ (a ++ ' ' :: b))) = some (String.mk a) := by
  unfold extractToken pySplit
  have hl : (String.mk ("Bearer ".toList ++ (a ++ ' ' :: b))).toList
      = "Bearer".toList ++ ' ' :: (a ++ ' ' :: b) := by simp
  rw [hl, pySplitChar_append ' ' _ _ (by decide), pySplitChar_append ' ' a b ha]
  simp

/-- `split(" ")[1]` of `"Bearer <a>"` is `<a>` when `<a>` has no space. -/
lemma extractToken_one_word (a : List Char) (ha : ' ' ∉ a) :
    extractToken (String.mk ("Bearer ".toList ++ a)) = some (String.mk a) := by
  unfold extractToken pySplit
  have hl : (String.mk ("Bearer ".toList ++ a)).toList
      = "Bearer".toList ++ ' ' :: a := by simp
  rw [hl, pySplitChar_append ' ' _ _ (by decide), pySplitChar_no_sep ' ' a ha]
  simp

/-- Unfolding of the `/me` handler past the header checks: once the
guard holds and a token has been extracted, the outcome is decided by
`verify_token` and the store lookup. -/
lemma get_current_user_verified (verify : String → Option TokenPayload)
    (s : ProfileStore) (h t : String) (hb : startsWithBearer h = true)
    (ht : extractToken h = some t) :
    get_current_user verify s (some h) =
      match verify t with
      | none => MeOutcome.invalidOrExpiredToken
      | some payload =>
        if pyFalsy payload.user_id then MeOutcome.invalidTokenPayload
        else
          match get_user_by_id s (payload.user_id.getD "") with
          | none => MeOutcome.userNotFound
          | some user => MeOutcome.ok user := by
  simp [get_current_user, hb, ht]

/-- The row transformation performed by the `UPDATE ... WHERE google_id`
statement. -/
def updateRow (google_id email : String) (name : Option String) (r : Profile) : Profile :=
  if r.google_id = google_id then { r with email := email, name := name } else r

lemma upsert_user_eq (freshId now : Nat) (profiles : ProfileStore)
    (google_id email : String) (name : Option String) :
    upsert_user freshId now profiles google_id email name =
      match profiles.find? (fun r => r.google_id = google_id) with
      | some row => (row.id, profiles.map (updateRow google_id email name))
      | none => (freshId, profiles ++ [newProfileRow freshId now google_id email name]) := by
  rfl

/-- The `UPDATE` statement touches neither `google_id` nor any column
outside `email`/`name`. -/
lemma updateRow_google_id (google_id email : String) (name : Option String) (r : Profile) :
    (updateRow google_id email name r).google_id = r.google_id := by
  unfold updateRow; split <;> rfl

lemma updateRow_id (google_id email : String) (name : Option String) (r : Profile) :
    (updateRow google_id email name r).id = r.id := by
  unfold updateRow; split <;> rfl

/-- The `SELECT ... WHERE google_id` lookup commutes with the update
map, because the update preserves `google_id`. -/
lemma find?_map_updateRow (g e : String) (n : Option String) (s : ProfileStore) :
    (s.map (updateRow g e n)).find? (fun r => r.google_id = g) =
      (s.find? (fun r => r.google_id = g)).map (updateRow g e n) := by
  rw [List.find?_map]
  have hp : ((fun r : Profile => decide (r.google_id = g)) ∘ updateRow g e n)
      = fun r : Profile => decide (r.google_id = g) := by
    funext r; simp [Function.comp, updateRow_google_id]
  rw [hp]

/-- The number of rows for a given `google_id` is invariant under the
update map. -/
lemma countP_map_updateRow (g e : String) (n : Option String) (s : ProfileStore) :
    (s.map (updateRow g e n)).countP (fun r => r.google_id = g) =
      s.countP (fun r => r.google_id = g) := by
  rw [List.countP_map]
  have hp : ((fun r : Profile => decide (r.google_id = g)) ∘ updateRow g e n)
      = fun r : Profile => decide (r.google_id = g) := by
    funext r; simp [Function.comp, updateRow_google_id]
  rw [hp]

/-! ## Claim theorems -/

/-- C4: the spec requires the missing-subject/email case of the
callback to reach the caller as a bad-request (400), distinct from the
generic server error.  The code raises `HTTPException(400, "Invalid
user info from Google")` inside the `try` block, but the blanket
`except Exception` handler catches it (an `HTTPException` is an
`Exception`) and re-raises it as a 500 — so the caller observes the
generic server error, not a 400. -/
theorem callback_masks_bad_request :
    google_callback 1 10 60 7 [] ⟨none, some "a@x.com", some "Alice"⟩ =
      CallbackResult.httpError 500
        "OAuth callback failed: 400: Invalid user info from Google" ∧
    (500 : Nat) ≠ 400 :=
  ⟨rfl, by decide⟩

/-- C5: token round-trip.  Issuing a token for a subject and verifying
it while the current time is not past the expiry returns a payload
whose `user_id` claim is that subject; verification returns the
explicit `none` (never throws) on a signature mismatch, on a malformed
token, and once the expiry has passed. -/
theorem token_round_trip (key issueTime ttl now : Nat) (x : String)
    (hnow : now ≤ issueTime + ttl) :
    (∃ p, verify_token key now (create_access_token key issueTime ttl x) = some p ∧
      p.user_id = some x) ∧
    (∀ p sig, sig ≠ signature key p →
      verify_token key now (Token.signed p sig) = none) ∧
    (∀ raw, verify_token key now (Token.malformed raw) = none) ∧
    (∀ p sig t, p.exp < t → verify_token key t (Token.signed p sig) = none) := by
  refine ⟨⟨⟨some x, issueTime + ttl⟩, ?_, rfl⟩, ?_, ?_, ?_⟩
  · simp [verify_token, create_access_token, hnow]
  · intro p sig hsig
    simp [verify_token, hsig]
  · intro raw
    rfl
  · intro p sig t ht
    simp [verify_token]
    intro _
    omega

/-- Witness for C5 at concrete inputs. -/
theorem token_round_trip_witness :
    verify_token 1 30 (Token.malformed "x") = none ∧
    verify_token 1 70 (Token.signed ⟨some "7", 60⟩ 0) = none :=
  ⟨(token_round_trip 1 0 60 30 "7" (by decide)).2.2.1 "x",
   (token_round_trip 1 0 60 30 "7" (by decide)).2.2.2 ⟨some "7", 60⟩ 0 70 (by decide)⟩

/-- C6: the boundary header `"Bearer "` passes the prefix check,
extracts the empty token, and — since the empty string is not a valid
token — terminates with the invalid-or-expired outcome rather than an
unhandled exception. -/
theorem empty_bearer_token_rejected (verify : String → Option TokenPayload)
    (s : ProfileStore) (hv : verify "" = none) :
    get_current_user verify s (some "Bearer ") = MeOutcome.invalidOrExpiredToken ∧
    get_current_user verify s (some "Bearer ") ≠ MeOutcome.internalError := by
  have h1 : get_current_user verify s (some "Bearer ") = MeOutcome.invalidOrExpiredToken := by
    rw [get_current_user_verified verify s "Bearer " "" (by decide) rfl, hv]
  exact ⟨h1, by rw [h1]; decide⟩

/-- Witness for C6 at a concrete verification function and store. -/
theorem empty_bearer_token_rejected_witness :
    get_current_user (fun _ => none) [] (some "Bearer ") = MeOutcome.invalidOrExpiredToken ∧
    get_current_user (fun _ => none) [] (some "Bearer ") ≠ MeOutcome.internalError :=
  empty_bearer_token_rejected (fun _ => none) [] rfl

/-- C9: a request without an `Authorization` header yields the
missing-authorization outcome (the framework rejects the missing
required header before the handler body runs), which is distinct from
the invalid-authorization-header outcome produced by a present header
that fails the `"Bearer "` prefix check. -/
theorem missing_header_outcome (verify : String → Option TokenPayload) (s : ProfileStore) :
    get_current_user verify s none = MeOutcome.missingAuthorization ∧
    (∀ h, startsWithBearer h = false →
      get_current_user verify s (some h) = MeOutcome.invalidAuthHeader) ∧
    MeOutcome.missingAuthorization ≠ MeOutcome.invalidAuthHeader := by
  refine ⟨rfl, ?_, by decide⟩
  intro h hh
  simp [get_current_user, hh]

/-- Witness for C9 at a concrete verification function, store and
malformed header. -/
theorem missing_header_outcome_witness :
    get_current_user (fun _ => none) [] none = MeOutcome.missingAuthorization ∧
    get_current_user (fun _ => none) [] (some "Token abc") = MeOutcome.invalidAuthHeader ∧
    MeOutcome.missingAuthorization ≠ MeOutcome.invalidAuthHeader :=
  ⟨(missing_header_outcome (fun _ => none) []).1,
   (missing_header_outcome (fun _ => none) []).2.1 "Token abc" (by decide),
   (missing_header_outcome (fun _ => none) []).2.2⟩

/-- C1: for a non-empty external id and email, the upsert either finds
the row with that `google_id` — in which case it returns that row's
`id`, creates no row, and unconditionally overwrites the `email` and
`name` of the matching row — or finds none, in which case it appends
exactly the one new row carrying the supplied `google_id`/`email`/
`name` and the creation timestamp, and returns the fresh identifier,
which is exactly the subject encoded in the token subsequently issued
by the callback. -/
theorem upsert_update_or_insert (g e : String) (_hg : g ≠ "") (_he : e ≠ "")
    (n : Option String) (s : ProfileStore) (freshId now key ttl : Nat) :
    (∀ row, s.find? (fun r => r.google_id = g) = some row →
      (upsert_user freshId now s g e n).1 = row.id ∧
      (upsert_user freshId now s g e n).2.length = s.length ∧
      (∀ q ∈ (upsert_user freshId now s g e n).2,
        q.google_id = g → q.email = e ∧ q.name = n) ∧
      (∃ q ∈ (upsert_user freshId now s g e n).2,
        q.id = row.id ∧ q.google_id = g ∧ q.email = e ∧ q.name = n)) ∧
    (s.find? (fun r => r.google_id = g) = none →
      (upsert_user freshId now s g e n).1 = freshId ∧
      (upsert_user freshId now s g e n).2 = s ++ [newProfileRow freshId now g e n] ∧
      tokenSubject (create_access_token key now ttl
        (uuidToString (upsert_user freshId now s g e n).1)) =
        some (uuidToString freshId)) := by
  constructor
  · intro row hrow
    have hmem := List.mem_of_find?_eq_some hrow
    have hrow_g : row.google_id = g := by
      have hp := List.find?_some hrow
      simpa using hp
    have h1 : upsert_user freshId now s g e n = (row.id, s.map (updateRow g e n)) := by
      rw [upsert_user_eq, hrow]
    rw [h1]
    refine ⟨rfl, List.length_map .., ?_, ?_⟩
    · intro q hq hqg
      obtain ⟨r, hr, rfl⟩ := List.mem_map.1 hq
      by_cases hrg : r.google_id = g
      · constructor <;> simp [updateRow, hrg]
      · rw [updateRow_google_id] at hqg
        exact absurd hqg hrg
    · exact ⟨updateRow g e n row, List.mem_map_of_mem _ hmem,
        updateRow_id g e n row,
        by rw [updateRow_google_id]; exact hrow_g,
        by simp [updateRow, hrow_g],
        by simp [updateRow, hrow_g]⟩
  · intro hnone
    have h1 : upsert_user freshId now s g e n
        = (freshId, s ++ [newProfileRow freshId now g e n]) := by
      rw [upsert_user_eq, hnone]
    rw [h1]
    exact ⟨rfl, rfl, rfl⟩

/-- Witness for C1: both branches at concrete stores — a fresh insert
into the empty store returns the fresh id, and an upsert over a store
already holding that external id returns the pre-existing id. -/
theorem upsert_update_or_insert_witness :
    (upsert_user 7 10 [] "g-123" "a@x.com" (some "Alice")).1 = 7 ∧
    (upsert_user 8 11 [newProfileRow 7 10 "g-123" "a@x.com" (some "Alice")]
      "g-123" "a2@x.com" (some "Alice B")).1 = 7 :=
  ⟨((upsert_update_or_insert "g-123" "a@x.com" (by decide) (by decide)
      (some "Alice") [] 7 10 1 60).2 rfl).1,
   ((upsert_update_or_insert "g-123" "a2@x.com" (by decide) (by decide)
      (some "Alice B") [newProfileRow 7 10 "g-123" "a@x.com" (some "Alice")] 8 11 1 60).1
      (newProfileRow 7 10 "g-123" "a@x.com" (some "Alice")) rfl).1⟩

/-- C2: sequential idempotence of the upsert.  On any store satisfying
the uniqueness invariant (at most one row per external id), running the
upsert twice with the same assertion returns the same id both times and
leaves exactly one row for that external id. -/
theorem upsert_idempotent (g e : String) (n : Option String) (s : ProfileStore)
    (f1 t1 f2 t2 : Nat)
    (hinv : s.countP (fun r => r.google_id = g) ≤ 1) :
    (upsert_user f2 t2 (upsert_user f1 t1 s g e n).2 g e n).1 =
      (upsert_user f1 t1 s g e n).1 ∧
    ((upsert_user f2 t2 (upsert_user f1 t1 s g e n).2 g e n).2).countP
      (fun r => r.google_id = g) = 1 := by
  cases h : s.find? (fun r => r.google_id = g) with
  | some row =>
    have hmem := List.mem_of_find?_eq_some h
    have hrow_g : row.google_id = g := by
      have hp := List.find?_some h
      simpa using hp
    have hcount1 : s.countP (fun r => r.google_id = g) = 1 := by
      have hpos : 0 < s.countP (fun r => r.google_id = g) :=
        List.countP_pos_iff.2 ⟨row, hmem, by simp [hrow_g]⟩
      omega
    have h1 : upsert_user f1 t1 s g e n = (row.id, s.map (updateRow g e n)) := by
      rw [upsert_user_eq, h]
    have hfind2 : (s.map (updateRow g e n)).find? (fun r => r.google_id = g)
        = some (updateRow g e n row) := by
      rw [find?_map_updateRow, h]
      rfl
    have h2 : upsert_user f2 t2 (s.map (updateRow g e n)) g e n
        = ((updateRow g e n row).id,
           (s.map (updateRow g e n)).map (updateRow g e n)) := by
      rw [upsert_user_eq, hfind2]
    rw [h1, h2]
    exact ⟨updateRow_id g e n row,
      by rw [countP_map_updateRow, countP_map_updateRow, hcount1]⟩
  | none =>
    have hcount0 : s.countP (fun r => r.google_id = g) = 0 :=
      List.countP_eq_zero.2 (List.find?_eq_none.1 h)
    have h1 : upsert_user f1 t1 s g e n = (f1, s ++ [newProfileRow f1 t1 g e n]) := by
      rw [upsert_user_eq, h]
    have hfind2 : (s ++ [newProfileRow f1 t1 g e n]).find? (fun r => r.google_id = g)
        = some (newProfileRow f1 t1 g e n) := by
      rw [List.find?_append, h]
      simp [newProfileRow]
    have h2 : upsert_user f2 t2 (s ++ [newProfileRow f1 t1 g e n]) g e n
        = ((newProfileRow f1 t1 g e n).id,
           (s ++ [newProfileRow f1 t1 g e n]).map (updateRow g e n)) := by
      rw [upsert_user_eq, hfind2]
    rw [h1, h2]
    refine ⟨rfl, ?_⟩
    rw [countP_map_updateRow, List.countP_append, hcount0]
    simp [newProfileRow]

/-- Witness for C2 starting from the empty store. -/
theorem upsert_idempotent_witness :
    (upsert_user 8 11 (upsert_user 7 10 [] "g-123" "a@x.com" none).2
      "g-123" "a@x.com" none).1 = (upsert_user 7 10 [] "g-123" "a@x.com" none).1 ∧
    ((upsert_user 8 11 (upsert_user 7 10 [] "g-123" "a@x.com" none).2
      "g-123" "a@x.com" none).2).countP (fun r => r.google_id = "g-123") = 1 :=
  upsert_idempotent "g-123" "a@x.com" none [] 7 10 8 11 (by simp)

/-- C7: frame condition of the upsert on a store containing a row for
the given external id.  The store keeps its length, every row keeps its
`id`, `google_id`, `created_at` and all additional profile columns
(position by position), and every row whose `google_id` differs is left
entirely unchanged; only `email` and `name` of matching rows are
written. -/
theorem upsert_frame (g e : String) (n : Option String) (s : ProfileStore)
    (freshId now : Nat)
    (hfound : s.find? (fun r => r.google_id = g) ≠ none) :
    (upsert_user freshId now s g e n).2.length = s.length ∧
    ∀ (i : Nat) (hi : i < s.length) (hi2 : i < (upsert_user freshId now s g e n).2.length),
      ((upsert_user freshId now s g e n).2.get ⟨i, hi2⟩).id = (s.get ⟨i, hi⟩).id ∧
      ((upsert_user freshId now s g e n).2.get ⟨i, hi2⟩).google_id = (s.get ⟨i, hi⟩).google_id ∧
      ((upsert_user freshId now s g e n).2.get ⟨i, hi2⟩).created_at = (s.get ⟨i, hi⟩).created_at ∧
      ((upsert_user freshId now s g e n).2.get ⟨i, hi2⟩).student_id = (s.get ⟨i, hi⟩).student_id ∧
      ((upsert_user freshId now s g e n).2.get ⟨i, hi2⟩).college = (s.get ⟨i, hi⟩).college ∧
      ((upsert_user freshId now s g e n).2.get ⟨i, hi2⟩).department = (s.get ⟨i, hi⟩).department ∧
      ((upsert_user freshId now s g e n).2.get ⟨i, hi2⟩).major = (s.get ⟨i, hi⟩).major ∧
      ((upsert_user freshId now s g e n).2.get ⟨i, hi2⟩).graduation_status
        = (s.get ⟨i, hi⟩).graduation_status ∧
      ((upsert_user freshId now s g e n).2.get ⟨i, hi2⟩).current_semester
        = (s.get ⟨i, hi⟩).current_semester ∧
      ((s.get ⟨i, hi⟩).google_id ≠ g →
        (upsert_user freshId now s g e n).2.get ⟨i, hi2⟩ = s.get ⟨i, hi⟩) := by
  obtain ⟨row, hrow⟩ := Option.ne_none_iff_exists'.1 hfound
  have h1 : upsert_user freshId now s g e n = (row.id, s.map (updateRow g e n)) := by
    rw [upsert_user_eq, hrow]
  rw [h1]
  refine ⟨List.length_map .., ?_⟩
  intro i hi hi2
  have hget : (s.map (updateRow g e n)).get ⟨i, hi2⟩ = updateRow g e n (s.get ⟨i, hi⟩) := by
    simp [List.get_eq_getElem, List.getElem_map]
  rw [hget]
  unfold updateRow
  by_cases hig : (s.get ⟨i, hi⟩).google_id = g
  · rw [if_pos hig]
    exact ⟨rfl, rfl, rfl, rfl, rfl, rfl, rfl, rfl, rfl, fun hcon => absurd hig hcon⟩
  · rw [if_neg hig]
    exact ⟨rfl, rfl, rfl, rfl, rfl, rfl, rfl, rfl, rfl, fun _ => rfl⟩

/-- Witness for C7: a two-row store, one matching row and one row with
a different external id. -/
theorem upsert_frame_witness :
    (upsert_user 5 20 [newProfileRow 7 10 "g1" "e1" none, newProfileRow 9 12 "g2" "e2" none]
      "g1" "enew" (some "nn")).2.length
      = [newProfileRow 7 10 "g1" "e1" none, newProfileRow 9 12 "g2" "e2" none].length ∧
    ((upsert_user 5 20 [newProfileRow 7 10 "g1" "e1" none, newProfileRow 9 12 "g2" "e2" none]
      "g1" "enew" (some "nn")).2.get ⟨0, by decide⟩).id
      = ([newProfileRow 7 10 "g1" "e1" none, newProfileRow 9 12 "g2" "e2" none].get
          ⟨0, by decide⟩).id :=
  ⟨(upsert_frame "g1" "enew" (some "nn")
      [newProfileRow 7 10 "g1" "e1" none, newProfileRow 9 12 "g2" "e2" none] 5 20 (by decide)).1,
   ((upsert_frame "g1" "enew" (some "nn")
      [newProfileRow 7 10 "g1" "e1" none, newProfileRow 9 12 "g2" "e2" none] 5 20 (by decide)).2
      0 (by decide) (by decide)).1⟩

/-- The dictionary built by `get_user_by_id` for a row: `str(id)`, the
plain columns, and the timestamps through `.isoformat()` when present. -/
def profileProjection (row : Profile) : UserProjection :=
  { id := uuidToString row.id
    google_id := row.google_id
    email := row.email
    name := row.name
    student_id := row.student_id
    college := row.college
    department := row.department
    major := row.major
    graduation_status := row.graduation_status
    current_semester := row.current_semester
    created_at := row.created_at.map isoformat
    updated_at := row.updated_at.map isoformat }

/-- C8: when the subject identifier matches an existing row, the lookup
returns the full projection (every selected column, `id` rendered as a
string, timestamps rendered via `isoformat` when present and null when
absent); consequently a `/me` request whose verified token carries that
subject succeeds with exactly that projection. -/
theorem lookup_full_projection (s : ProfileStore) (uid : String) (row : Profile)
    (hfind : s.find? (fun r => uuidToString r.id = uid) = some row) :
    get_user_by_id s uid = some (profileProjection row) ∧
    ∀ (verify : String → Option TokenPayload) (h t : String) (payload : TokenPayload),
      startsWithBearer h = true → extractToken h = some t →
      verify t = some payload → payload.user_id = some uid → uid ≠ "" →
      get_current_user verify s (some h) = MeOutcome.ok (profileProjection row) := by
  have hproj : get_user_by_id s uid = some (profileProjection row) := by
    unfold get_user_by_id
    rw [hfind]
    rfl
  refine ⟨hproj, ?_⟩
  intro verify h t payload hb ht hv hpid hne
  have hfalsy : pyFalsy (some uid) = false := by
    simp [pyFalsy, hne]
  rw [get_current_user_verified verify s h t hb ht, hv]
  simp [hpid, hfalsy, hproj]

/-- Witness for C8 at a one-row store and a constant verification
function. -/
theorem lookup_full_projection_witness :
    get_user_by_id [newProfileRow 7 10 "g-123" "a@x.com" (some "Alice")] "7"
      = some (profileProjection (newProfileRow 7 10 "g-123" "a@x.com" (some "Alice"))) ∧
    get_current_user (fun _ => some ⟨some "7", 60⟩)
      [newProfileRow 7 10 "g-123" "a@x.com" (some "Alice")] (some "Bearer tok")
      = MeOutcome.ok (profileProjection (newProfileRow 7 10 "g-123" "a@x.com" (some "Alice"))) :=
  ⟨(lookup_full_projection [newProfileRow 7 10 "g-123" "a@x.com" (some "Alice")] "7"
      (newProfileRow 7 10 "g-123" "a@x.com" (some "Alice")) (by decide)).1,
   (lookup_full_projection [newProfileRow 7 10 "g-123" "a@x.com" (some "Alice")] "7"
      (newProfileRow 7 10 "g-123" "a@x.com" (some "Alice")) (by decide)).2
      (fun _ => some ⟨some "7", 60⟩) "Bearer tok" "tok" ⟨some "7", 60⟩
      (by decide) (by decide) rfl rfl (by decide)⟩

/-- C3: on any present `Authorization` header, the `/me` flow yields
exactly one outcome, decided in order: a header failing the
`"Bearer "` prefix check yields the invalid-authorization-header
outcome; otherwise a token is always extracted, and a failed
verification, a payload with a falsy subject claim, an unknown subject,
and a matched subject respectively yield the invalid-or-expired,
invalid-payload, user-not-found and success outcomes; the four failure
outcomes are pairwise distinct. -/
theorem me_outcome_cases (verify : String → Option TokenPayload) (s : ProfileStore)
    (h : String) :
    (startsWithBearer h = false →
      get_current_user verify s (some h) = MeOutcome.invalidAuthHeader) ∧
    (startsWithBearer h = true → ∃ t, extractToken h = some t ∧
      (verify t = none →
        get_current_user verify s (some h) = MeOutcome.invalidOrExpiredToken) ∧
      (∀ payload, verify t = some payload →
        (pyFalsy payload.user_id = true →
          get_current_user verify s (some h) = MeOutcome.invalidTokenPayload) ∧
        (pyFalsy payload.user_id = false →
          (get_user_by_id s (payload.user_id.getD "") = none →
            get_current_user verify s (some h) = MeOutcome.userNotFound) ∧
          (∀ u, get_user_by_id s (payload.user_id.getD "") = some u →
            get_current_user verify s (some h) = MeOutcome.ok u)))) ∧
    ([MeOutcome.invalidAuthHeader, MeOutcome.invalidOrExpiredToken,
      MeOutcome.invalidTokenPayload, MeOutcome.userNotFound].Pairwise (· ≠ ·)) := by
  refine ⟨?_, ?_, by decide⟩
  · intro hh
    simp [get_current_user, hh]
  · intro hb
    obtain ⟨t, ht⟩ := extractToken_of_bearer h hb
    refine ⟨t, ht, ?_, ?_⟩
    · intro hv
      rw [get_current_user_verified verify s h t hb ht, hv]
    · intro payload hv
      refine ⟨?_, ?_⟩
      · intro hfalsy
        rw [get_current_user_verified verify s h t hb ht, hv]
        simp [hfalsy]
      · intro hfalsy
        refine ⟨?_, ?_⟩
        · intro hnone
          rw [get_current_user_verified verify s h t hb ht, hv]
          simp [hfalsy, hnone]
        · intro u hu
          rw [get_current_user_verified verify s h t hb ht, hv]
          simp [hfalsy, hu]

/-- Witness for C3 at a concrete header and a verification function
that rejects every token. -/
theorem me_outcome_cases_witness :
    get_current_user (fun _ => none) [] (some "Bearer x")
      = MeOutcome.invalidOrExpiredToken := by
  obtain ⟨t, ht, hinv, _⟩ := (me_outcome_cases (fun _ => none) [] "Bearer x").2.1 (by decide)
  exact hinv rfl

/-- C10: for a header `"Bearer <a> <b>"` whose token part itself
contains a space, `split(" ")[1]` yields only the substring between the
first and second spaces, so the flow verifies `<a>` and behaves exactly
as it would on `"Bearer <a>"`, silently discarding the remainder. -/
theorem token_split_discards_rest (verify : String → Option TokenPayload)
    (s : ProfileStore) (a b : List Char) (ha : ' ' ∉ a) :
    extractToken (String.mk ("Bearer ".toList ++ (a ++ ' ' :: b))) = some (String.mk a) ∧
    get_current_user verify s (some (String.mk ("Bearer ".toList ++ (a ++ ' ' :: b)))) =
      get_current_user verify s (some (String.mk ("Bearer ".toList ++ a))) := by
  refine ⟨extractToken_two_words a b ha, ?_⟩
  rw [get_current_user_verified verify s _ (String.mk a) (startsWithBearer_mk _)
      (extractToken_two_words a b ha),
    get_current_user_verified verify s _ (String.mk a) (startsWithBearer_mk _)
      (extractToken_one_word a ha)]

/-- Witness for C10 at the header `"Bearer a b"`. -/
theorem token_split_discards_rest_witness :
    extractToken (String.mk ("Bearer ".toList ++ (['a'] ++ ' ' :: ['b'])))
      = some (String.mk ['a']) ∧
    get_current_user (fun _ => none) []
        (some (String.mk ("Bearer ".toList ++ (['a'] ++ ' ' :: ['b'])))) =
      get_current_user (fun _ => none) [] (some (String.mk ("Bearer ".toList ++ ['a']))) :=
  token_split_discards_rest (fun _ => none) [] ['a'] ['b'] (by decide)

end GangNangBot
